import Mathlib

/-!
Verification of the conversational-analytics pipeline of the
`poc-ai-data-analysis` repository (files `app.py`, `ai_handler.py`,
`query_executor.py`, `data_loader.py`).

Python strings are modelled as `List Char` (`PyStr`), with the string
operations the source uses (`strip`, `replace`, `split('\n')`, `'\n'.join`,
`startswith`) implemented as executable structural recursions that follow
Python's semantics.  The three round trips to the reasoning service, the
embedded relational engine (pandasql) and the dynamic execution of generated
rendering code are external effects; each is modelled by an outcome value
(an oracle) covering exactly the cases the source distinguishes: a completion
(possibly `None` or empty), or a raised exception.  The Streamlit turn
handler of `app.py` lines 125-243 is modelled by `runTurn`, which threads
the message list, records the `st.error` / `st.warning` / `st.info` boxes
the branch displays, and records which stages were invoked.
-/

/-- Python strings, modelled as their character sequences. -/
abbrev PyStr := List Char

/-- The ASCII whitespace recognised by Python's `str.strip()`:
space, tab, newline, carriage return, vertical tab, form feed.  (The
source's strings are ASCII; the rare non-ASCII Unicode whitespace that
`strip()` would also remove is not modelled.) -/
def pyIsSpace (c : Char) : Bool :=
  c == ' ' || c == '\t' || c == '\n' || c == '\r' ||
    c == Char.ofNat 11 || c == Char.ofNat 12

/-- Python `s.strip()`: remove leading and trailing whitespace. -/
def pyStrip (s : PyStr) : PyStr :=
  ((s.dropWhile pyIsSpace).reverse.dropWhile pyIsSpace).reverse

/-- Python `s.startswith(p)`. -/
def pyStartsWith : PyStr → PyStr → Bool
  | _, [] => true
  | [], _ :: _ => false
  | c :: s, p :: ps => c == p && pyStartsWith s ps

/-- Auxiliary scan for `pyReplace`; the fuel bounds the number of steps and
is in the wrapper set large enough never to run out. -/
def pyReplaceFuel : Nat → PyStr → PyStr → PyStr → PyStr
  | 0, s, _, _ => s
  | _ + 1, [], _, _ => []
  | fuel + 1, c :: s, pat, rep =>
    if !pat.isEmpty && pyStartsWith (c :: s) pat then
      rep ++ pyReplaceFuel fuel ((c :: s).drop pat.length) pat rep
    else
      c :: pyReplaceFuel fuel s pat rep

/-- Python `s.replace(pat, rep)` for a non-empty pattern: replace all
non-overlapping occurrences, scanning left to right.  (Every call in the
source uses one of the non-empty patterns "```sql", "```python", "```".) -/
def pyReplace (s pat rep : PyStr) : PyStr :=
  pyReplaceFuel s.length s pat rep

/-- Truthiness of an `Optional[str]` value in Python: `None` and the empty
string are falsy. -/
def optTruthy : Option PyStr → Bool
  | none => false
  | some s => !s.isEmpty

/-- A pandas column: its name and the name of its dtype. -/
structure Column where
  name : String
  dtype : String
deriving DecidableEq, Repr

/-- A pandas DataFrame: named, dtype-tagged columns and a list of rows. -/
structure DataFrame where
  cols : List Column
  rows : List (List PyStr)
deriving DecidableEq, Repr

/-- The numpy dtypes selected by `select_dtypes(include='number')`. -/
def numericDtypes : List String :=
  ["int8", "int16", "int32", "int64", "uint8", "uint16", "uint32", "uint64",
   "float16", "float32", "float64", "complex64", "complex128"]

/-- The columns selected by `df.select_dtypes(include='number').columns`. -/
def DataFrame.numericColumns (df : DataFrame) : List Column :=
  df.cols.filter (fun c => numericDtypes.contains c.dtype)

/-- Pandas `df.empty`: true when either axis has length 0. -/
def DataFrame.empty (df : DataFrame) : Bool :=
  df.rows.isEmpty || df.cols.isEmpty

/-- An opaque Plotly figure object (truthy whenever present). -/
structure Artifact where
  tag : Nat
deriving DecidableEq, Repr

/-- Chat roles used by the app. -/
inductive Role
  | user
  | assistant
deriving DecidableEq, Repr

/-- One entry of `st.session_state.messages` (app.py lines 135-143): the
dict keys the app stores for each chat message. -/
structure Message where
  role : Role
  content : PyStr
  dataframe : Option DataFrame := none
  plot : Option Artifact := none
  sql_query : Option PyStr := none
  plotly_code : Option PyStr := none
  summary : Option PyStr := none
deriving DecidableEq, Repr

/-- Outcome of one `client.chat.completions.create` round trip as the
source distinguishes them: a completion whose `message.content` is an
`Optional[str]`, or a raised exception with its message text. -/
inductive ServiceOutcome
  | completion (content : Option PyStr)
  | exception (message : PyStr)

/-- Post-processing of the SQL completion (ai_handler.py line 57):
`message_content.strip().replace("```sql", "").replace("```", "")`. -/
def sqlPostprocess (message_content : PyStr) : PyStr :=
  pyReplace (pyReplace (pyStrip message_content) "```sql".data "".data) "```".data "".data

/-- The function `generate_sql` of ai_handler.py (lines 24-63).  The prompt
assembly only feeds the reasoning service, whose behaviour is the outcome
oracle; the function itself never raises. -/
def generate_sql (chat_history : List (Role × PyStr)) (schema : PyStr)
    (service : ServiceOutcome) : PyStr :=
  match service with
  | ServiceOutcome.completion (some message_content) =>
    if !message_content.isEmpty then
      sqlPostprocess message_content
    else
      "Error: The AI model returned an empty response.".data
  | ServiceOutcome.completion none =>
    "Error: The AI model returned an empty response.".data
  | ServiceOutcome.exception e =>
    "Error: Could not generate SQL query. Details: ".data ++ e

/-- Post-processing of the visualization completion (ai_handler.py lines
156-159): strip code fences, then drop every line whose stripped form
starts with `"import "`, and rejoin with newlines. -/
def plotlyPostprocess (message_content : PyStr) : PyStr :=
  let plotly_code :=
    pyReplace (pyReplace (pyStrip message_content) "```python".data "".data) "```".data "".data
  let plotly_code_lines := plotly_code.splitOn '\n'
  let cleaned_plotly_code_lines :=
    plotly_code_lines.filter (fun line => !pyStartsWith (pyStrip line) "import ".data)
  List.intercalate ['\n'] cleaned_plotly_code_lines

/-- The function `generate_plotly_code` of ai_handler.py (lines 66-165). -/
def generate_plotly_code (data : DataFrame) (question : PyStr)
    (service : ServiceOutcome) : PyStr :=
  match service with
  | ServiceOutcome.completion (some message_content) =>
    if !message_content.isEmpty then
      plotlyPostprocess message_content
    else
      "".data
  | ServiceOutcome.completion none => "".data
  | ServiceOutcome.exception e =>
    "Error generating Plotly code: ".data ++ e

/-- The function `generate_data_summary` of ai_handler.py (lines 168-215). -/
def generate_data_summary (data : DataFrame) (question : PyStr)
    (service : ServiceOutcome) : PyStr :=
  match service with
  | ServiceOutcome.completion (some message_content) =>
    if !message_content.isEmpty then
      pyStrip message_content
    else
      "No summary could be generated.".data
  | ServiceOutcome.completion none => "No summary could be generated.".data
  | ServiceOutcome.exception e =>
    "Error generating summary: ".data ++ e

/-- Outcome of one `sqldf` evaluation as query_executor.py distinguishes
them: a returned result (pandasql returns `None` for statements without a
result set), a raised `PandaSQLException`, or any other raised exception. -/
inductive EngineOutcome
  | result (df : Option DataFrame)
  | pandaSqlException (message : PyStr)
  | otherException (message : PyStr)

/-- The function `execute_query` of query_executor.py (lines 5-37); the
embedded engine's behaviour on the query text and bound table is the
oracle argument.  Every outcome is mapped to a `(result, error)` pair, so
the function never raises past its boundary. -/
def execute_query (engine : PyStr → DataFrame → EngineOutcome)
    (sql_query : PyStr) (df : DataFrame) : Option DataFrame × Option PyStr :=
  match engine sql_query df with
  | EngineOutcome.result result_df => (result_df, none)
  | EngineOutcome.pandaSqlException e =>
    (none, some ("SQL Error: ".data ++ e ++ ". Please check your query syntax.".data))
  | EngineOutcome.otherException e =>
    (none, some ("An unexpected error occurred: ".data ++ e))

/-- The function `get_schema` of data_loader.py (lines 36-56). -/
def get_schema : Option DataFrame → PyStr
  | none => "".data
  | some df =>
    df.cols.foldl
      (fun schema column =>
        schema ++ "- Column: '".data ++ column.name.data ++
          "' (Type: ".data ++ column.dtype.data ++ ")\n".data)
      "Table 'df' has the following columns and data types:\n".data

/-- The two names bound into the local namespace handed to the dynamic
execution of generated rendering code (app.py line 220):
`local_vars = {'df': result_df, 'px': px}`. -/
def sandboxLocalNames : List String := ["df", "px"]

/-- A representative subset of the names of CPython's builtins module.
The call at app.py line 221 passes the empty dict as globals; CPython's
documented behaviour for the dynamic-execution primitive is to insert a
reference to the builtins module into a globals dict that lacks the
builtins key, so every builtin — including the import primitive and the
file-opening function — resolves inside the executed code. -/
def pythonBuiltinNames : List String :=
  ["__import__", "open", "compile", "getattr", "setattr", "delattr",
   "globals", "locals", "vars", "dir", "print", "input", "abs", "len",
   "min", "max", "sum", "range", "type", "object", "repr", "memoryview"]

/-- Name resolution reachable from the code executed at app.py line 221:
the two pre-populated local bindings, then the (empty) globals dict into
which CPython injects the builtins module. -/
def sandboxReachable (name : String) : Bool :=
  sandboxLocalNames.contains name || pythonBuiltinNames.contains name

/-- Outcome of dynamically executing generated rendering code, as the
source distinguishes them (app.py lines 218-230): the code ran to the end
and the name `fig` is (or is not) bound to a figure in the namespace, or
the execution raised.  There is no timeout or resource-ceiling outcome:
the source wraps the execution in nothing but `try`/`except`. -/
inductive SandboxOutcome
  | finished (fig : Option Artifact)
  | raised (message : PyStr)

/-- The external effects of one turn, fixed up front: the three reasoning
service round trips, the embedded relational engine, and the dynamic
execution of rendering code. -/
structure Oracles where
  sqlService : ServiceOutcome
  engine : PyStr → DataFrame → EngineOutcome
  summaryService : ServiceOutcome
  plotService : ServiceOutcome
  sandbox : PyStr → SandboxOutcome

/-- A user-facing status box displayed during the turn:
`st.error`, `st.warning` or `st.info`. -/
inductive Notice
  | errorBox (text : PyStr)
  | warningBox (text : PyStr)
  | infoBox (text : PyStr)
deriving DecidableEq, Repr

/-- What one turn of the handler produces: the updated message list, the
status boxes shown, and which stages were actually invoked. -/
structure TurnResult where
  messages : List Message
  notices : List Notice
  ranExecute : Bool
  ranSummary : Bool
  ranVizGen : Bool
  ranSandbox : Bool
deriving DecidableEq, Repr

/-- The user message appended for a submitted prompt (app.py line 130). -/
def userMessage (prompt : PyStr) : Message :=
  { role := Role.user, content := prompt }

/-- The history projection handed to the translator (app.py lines 150-153):
every stored message reduced to its role and content. -/
def chatHistory (messages : List Message) : List (Role × PyStr) :=
  messages.map (fun m => (m.role, m.content))

/-- The assistant message under construction (app.py lines 135-143) right
after the generated query text is stored on it (line 158). -/
def assistantDraft (sql_query : PyStr) : Message :=
  { role := Role.assistant, content := [], sql_query := some sql_query }

/-- The check `result_df is None or result_df.empty` (app.py line 184). -/
def dfAbsentOrEmpty : Option DataFrame → Bool
  | none => true
  | some d => d.empty

/-- The visualization block of app.py lines 210-232: generate Plotly code,
store it on the assistant message, and when it is non-empty execute it in
the sandboxed namespace, displaying the chart, a warning when no `fig` was
produced, or a rendering error when the execution raised. -/
def vizBranch (messages : List Message) (new_assistant_message : Message)
    (response_content : PyStr) (result_df : DataFrame) (prompt : PyStr)
    (o : Oracles) : TurnResult :=
  let plotly_code := generate_plotly_code result_df prompt o.plotService
  let new_assistant_message := { new_assistant_message with plotly_code := some plotly_code }
  if !plotly_code.isEmpty then
    match o.sandbox plotly_code with
    | SandboxOutcome.finished (some fig) =>
      { messages := messages ++ [{ new_assistant_message with content := response_content, plot := some fig }],
        notices := [],
        ranExecute := true, ranSummary := true, ranVizGen := true, ranSandbox := true }
    | SandboxOutcome.finished none =>
      { messages := messages ++ [{ new_assistant_message with content := response_content }],
        notices := [Notice.warningBox "The AI generated code that did not produce a chart.".data],
        ranExecute := true, ranSummary := true, ranVizGen := true, ranSandbox := true }
    | SandboxOutcome.raised e =>
      { messages := messages ++ [{ new_assistant_message with content := response_content }],
        notices := [Notice.errorBox ("An error occurred while rendering the visualization: ".data ++ e)],
        ranExecute := true, ranSummary := true, ranVizGen := true, ranSandbox := true }
  else
    { messages := messages ++ [{ new_assistant_message with content := response_content }],
      notices := [Notice.infoBox "A visualization could not be generated for this query result.".data],
      ranExecute := true, ranSummary := true, ranVizGen := true, ranSandbox := false }

/-- The success block of app.py lines 190-240: generate and store the
summary, store the result table, and attempt visualization only when the
result has at least 2 columns and at least one numeric column. -/
def successBranch (messages : List Message) (new_assistant_message : Message)
    (result_df : DataFrame) (prompt : PyStr) (o : Oracles) : TurnResult :=
  let summary_text := generate_data_summary result_df prompt o.summaryService
  let new_assistant_message := { new_assistant_message with summary := some summary_text }
  let response_content := "Here are the results of your query:".data
  let new_assistant_message := { new_assistant_message with dataframe := some result_df }
  let numeric_cols := result_df.numericColumns
  if 2 ≤ result_df.cols.length ∧ 0 < numeric_cols.length then
    vizBranch messages new_assistant_message response_content result_df prompt o
  else
    { messages := messages ++ [{ new_assistant_message with content := response_content }],
      notices := [Notice.infoBox "The query result is not suitable for a visualization at this time.".data],
      ranExecute := true, ranSummary := true, ranVizGen := false, ranSandbox := false }

/-- The execution block of app.py lines 172-240: run the generated query;
on an execution error append an error turn and stop; on an absent or empty
result append the "no results" turn and stop; otherwise continue with the
success block. -/
def execBranch (messages : List Message) (new_assistant_message : Message)
    (sql_query : PyStr) (df_main : DataFrame) (prompt : PyStr)
    (o : Oracles) : TurnResult :=
  let r := execute_query o.engine sql_query df_main
  let result_df := r.1
  let error := r.2
  if optTruthy error then
    let response_content :=
      "I encountered an error running the query:\n\n`".data ++ error.getD [] ++ "`".data
    { messages := messages ++ [{ new_assistant_message with content := response_content }],
      notices := [Notice.errorBox response_content],
      ranExecute := true, ranSummary := false, ranVizGen := false, ranSandbox := false }
  else if dfAbsentOrEmpty result_df then
    let response_content := "The query ran successfully but returned no results.".data
    { messages := messages ++ [{ new_assistant_message with content := response_content }],
      notices := [Notice.warningBox response_content],
      ranExecute := true, ranSummary := false, ranVizGen := false, ranSandbox := false }
  else
    successBranch messages new_assistant_message
      (result_df.getD { cols := [], rows := [] }) prompt o

/-- One user turn of the chat handler, app.py lines 125-243: append the
user message, generate the SQL query, halt with an error turn when the
returned text starts with "Error:", and otherwise continue with the
execution block.  Every `st.rerun()` in the source raises and thereby ends
the script run, so each branch appends its assistant message exactly once. -/
def runTurn (messages0 : List Message) (prompt : PyStr) (df_main : DataFrame)
    (o : Oracles) : TurnResult :=
  let messages := messages0 ++ [userMessage prompt]
  let chat_history_for_api := chatHistory messages
  let schema := get_schema (some df_main)
  let sql_query := generate_sql chat_history_for_api schema o.sqlService
  let new_assistant_message := assistantDraft sql_query
  if pyStartsWith sql_query "Error:".data then
    let response_content :=
      "Sorry, I encountered an error during SQL generation:\n\n`".data ++ sql_query ++ "`".data
    { messages := messages ++ [{ new_assistant_message with content := response_content }],
      notices := [Notice.errorBox response_content],
      ranExecute := false, ranSummary := false, ranVizGen := false, ranSandbox := false }
  else
    execBranch messages new_assistant_message sql_query df_main prompt o

/-- Modelled from the spec: a line "beginning with an import directive" is a
line that, after its leading whitespace, opens a Python import statement —
the keyword `import` followed by whitespace.  The code's filter at
ai_handler.py line 158 only tests for the space-separated form. -/
def lineBeginsImportDirective (line : PyStr) : Bool :=
  pyStartsWith (pyStrip line) "import ".data ||
    pyStartsWith (pyStrip line) "import\t".data

/-- A concrete result table with one numeric and one text column and one
row, used to instantiate theorems at concrete inputs. -/
def sampleNumericDf : DataFrame :=
  { cols := [{ name := "Fiscal_Year_1", dtype := "int64" },
             { name := "label", dtype := "object" }],
    rows := [["2021".data, "a".data]] }

/-- A concrete result table with two text columns and one row: the gate's
skip boundary (2 columns, zero numeric columns). -/
def sampleTextDf : DataFrame :=
  { cols := [{ name := "country", dtype := "object" },
             { name := "region", dtype := "object" }],
    rows := [["USA".data, "west".data]] }

/-- A concrete result table with columns but no rows. -/
def emptyResultDf : DataFrame :=
  { cols := [{ name := "country", dtype := "object" }], rows := [] }

/-- Concrete benign external effects: every service call completes, the
engine returns the given table, the sandboxed execution produces a figure. -/
def oraclesFor (d : DataFrame) : Oracles :=
  { sqlService := ServiceOutcome.completion (some "SELECT 1".data),
    engine := fun _ _ => EngineOutcome.result (some d),
    summaryService := ServiceOutcome.completion (some "A summary.".data),
    plotService := ServiceOutcome.completion (some "fig = px.bar(df)".data),
    sandbox := fun _ => SandboxOutcome.finished (some { tag := 0 }) }

/-- Concrete external effects where the visualization-code service call
raises and the sandboxed execution of the resulting text raises. -/
def vizFailureOracles : Oracles :=
  { sqlService := ServiceOutcome.completion (some "SELECT 1".data),
    engine := fun _ _ => EngineOutcome.result (some sampleNumericDf),
    summaryService := ServiceOutcome.completion (some "A summary.".data),
    plotService := ServiceOutcome.exception "boom".data,
    sandbox := fun _ => SandboxOutcome.raised "invalid syntax".data }

/-- No piece produced by `splitOnP` keeps an element satisfying the
predicate that was split on. -/
theorem splitOnP_pieces_not_p {α : Type} (p : α → Bool) :
    ∀ (xs l : List α), l ∈ xs.splitOnP p → ∀ y ∈ l, p y = false := by
  intro xs
  induction xs with
  | nil =>
    intro l hl y hy
    simp only [List.splitOnP_nil, List.mem_singleton] at hl
    subst hl
    simp at hy
  | cons a as ih =>
    intro l hl y hy
    rw [List.splitOnP_cons] at hl
    by_cases hpa : p a = true
    · rw [if_pos hpa] at hl
      rcases List.mem_cons.mp hl with h | h
      · subst h; simp at hy
      · exact ih l h y hy
    · rw [if_neg hpa] at hl
      obtain ⟨h0, t0, hsplit⟩ : ∃ h0 t0, as.splitOnP p = h0 :: t0 := by
        rcases hcase : as.splitOnP p with _ | ⟨h0, t0⟩
        · exact absurd hcase (List.splitOnP_ne_nil p as)
        · exact ⟨h0, t0, rfl⟩
      rw [hsplit] at hl
      simp only [List.modifyHead] at hl
      rcases List.mem_cons.mp hl with h | h
      · subst h
        rcases List.mem_cons.mp hy with h | h
        · subst h; simpa using hpa
        · exact ih h0 (by rw [hsplit]; exact List.mem_cons_self _ _) y h
      · exact ih l (by rw [hsplit]; exact List.mem_cons_of_mem _ h) y hy

/-- The separator is never an element of a piece of `splitOn`. -/
theorem not_mem_of_mem_splitOn {α : Type} [DecidableEq α] (x : α)
    (xs l : List α) (hl : l ∈ xs.splitOn x) : x ∉ l := by
  intro hx
  have := splitOnP_pieces_not_p (· == x) xs l (by simpa [List.splitOn] using hl) x hx
  simp at this

/-- C4 (amended).  For every model completion, the post-processing of the
visualization code returns a string none of whose lines, after stripping
surrounding whitespace, starts with `"import "` — the keyword followed by
a space, the form the source's filter tests for. -/
theorem c4_no_space_import_line_in_output (s : PyStr) :
    ∀ l ∈ (plotlyPostprocess s).splitOn '\n',
      pyStartsWith (pyStrip l) "import ".data = false := by
  intro l hl
  unfold plotlyPostprocess at hl
  dsimp only at hl
  set code :=
    pyReplace (pyReplace (pyStrip s) "```python".data "".data) "```".data "".data with hcode
  set cleaned :=
    (code.splitOn '\n').filter (fun line => !pyStartsWith (pyStrip line) "import ".data)
    with hcleaned
  rcases hc : cleaned with _ | ⟨c0, cs⟩
  · rw [hc] at hl
    have hnil : ['\n'].intercalate ([] : List PyStr) = [] := rfl
    rw [hnil, List.splitOn_nil, List.mem_singleton] at hl
    subst hl
    rfl
  · have hno : ∀ m ∈ cleaned, '\n' ∉ m := by
      intro m hm
      exact not_mem_of_mem_splitOn '\n' code m (List.mem_of_mem_filter hm)
    have hsplit : (['\n'].intercalate cleaned).splitOn '\n' = cleaned := by
      refine List.splitOn_intercalate _ '\n' hno ?_
      rw [hc]
      exact List.cons_ne_nil _ _
    rw [hsplit] at hl
    have hmem := List.of_mem_filter hl
    simpa using hmem

/-- C4 (counterexample).  The completion consisting of the single line
`import<TAB>os` — a line that begins with an import directive, written with
a tab after the keyword — passes through the post-processing unchanged, so
the returned code string still contains a line beginning with an import
directive. -/
theorem c4_counterexample :
    lineBeginsImportDirective "import\tos".data = true ∧
    (plotlyPostprocess "import\tos".data).splitOn '\n' = ["import\tos".data] := by
  decide

/-- C4 (witness). -/
theorem c4_witness :
    "fig = 1".data ∈ (plotlyPostprocess "import os\nfig = 1".data).splitOn '\n' ∧
    pyStartsWith (pyStrip "fig = 1".data) "import ".data = false :=
  ⟨by decide,
    c4_no_space_import_line_in_output "import os\nfig = 1".data "fig = 1".data (by decide)⟩

/-- C1.  In the namespace handed to the dynamic execution of rendering
code, the injected builtins — among them the import primitive and the
file-opening function — are reachable, although neither is one of the two
pre-populated local bindings. -/
theorem c1_sandbox_reaches_builtins :
    sandboxReachable "__import__" = true ∧
    sandboxReachable "open" = true ∧
    sandboxLocalNames.contains "__import__" = false ∧
    sandboxLocalNames.contains "open" = false := by
  decide

/-- C7.  The execution of generated rendering code distinguishes exactly
two outcomes — it finished (with or without binding `fig`) or it raised;
there is no timeout or resource-ceiling outcome, because the source wraps
the execution in nothing but `try`/`except`. -/
theorem c7_sandbox_has_no_timeout_outcome (s : SandboxOutcome) :
    (∃ fig, s = SandboxOutcome.finished fig) ∨
      (∃ m, s = SandboxOutcome.raised m) := by
  cases s with
  | finished fig => exact Or.inl ⟨fig, rfl⟩
  | raised m => exact Or.inr ⟨m, rfl⟩

/-- C3.  `execute_query` maps every engine outcome to a `(result, error)`
pair and never raises past its boundary: an engine rejection becomes an
error message that carries the engine's message verbatim as a substring,
any other failure becomes the generic error message, and success returns
the engine's result table with no error. -/
theorem c3_execute_query_total_contract (engine : PyStr → DataFrame → EngineOutcome)
    (sql_query : PyStr) (df : DataFrame) :
    match engine sql_query df with
    | EngineOutcome.result r => execute_query engine sql_query df = (r, none)
    | EngineOutcome.pandaSqlException e =>
      execute_query engine sql_query df =
        (none, some ("SQL Error: ".data ++ e ++ ". Please check your query syntax.".data)) ∧
      ∃ before after, (execute_query engine sql_query df).2 = some (before ++ e ++ after)
    | EngineOutcome.otherException e =>
      execute_query engine sql_query df =
        (none, some ("An unexpected error occurred: ".data ++ e)) := by
  cases h : engine sql_query df with
  | result r => simp [execute_query, h]
  | pandaSqlException e =>
    refine ⟨by simp [execute_query, h],
      "SQL Error: ".data, ". Please check your query syntax.".data, ?_⟩
    simp [execute_query, h]
  | otherException e => simp [execute_query, h]

/-- C8 (counterexample).  When the summarization call raises, the returned
text is the error string, not the fixed fallback string. -/
theorem c8_counterexample :
    generate_data_summary { cols := [], rows := [] } "q".data
        (ServiceOutcome.exception "boom".data) =
      "Error generating summary: boom".data ∧
    generate_data_summary { cols := [], rows := [] } "q".data
        (ServiceOutcome.exception "boom".data) ≠
      "No summary could be generated.".data := by
  decide

/-- C8 (amended).  `generate_data_summary` is total over all service
outcomes: a truthy completion is returned stripped, an empty or absent
completion becomes the fixed fallback string, and a raised exception
becomes the summary-error string — it never raises and never fails the
turn. -/
theorem c8_summary_total_trichotomy (data : DataFrame) (question : PyStr)
    (service : ServiceOutcome) :
    match service with
    | ServiceOutcome.completion (some s) =>
      generate_data_summary data question service =
        if !s.isEmpty then pyStrip s else "No summary could be generated.".data
    | ServiceOutcome.completion none =>
      generate_data_summary data question service = "No summary could be generated.".data
    | ServiceOutcome.exception e =>
      generate_data_summary data question service = "Error generating summary: ".data ++ e := by
  cases service with
  | completion c => cases c <;> rfl
  | exception e => rfl

/-- Every branch of the visualization block appends exactly one message,
with the role of the assistant message under construction. -/
theorem vizBranch_one_append (messages : List Message) (m : Message)
    (rc : PyStr) (d : DataFrame) (prompt : PyStr) (o : Oracles) :
    ∃ a, (vizBranch messages m rc d prompt o).messages = messages ++ [a] ∧
      a.role = m.role := by
  unfold vizBranch
  dsimp only
  split
  · split <;> exact ⟨_, rfl, rfl⟩
  · exact ⟨_, rfl, rfl⟩

/-- Every branch of the success block appends exactly one message, with
the role of the assistant message under construction. -/
theorem successBranch_one_append (messages : List Message) (m : Message)
    (d : DataFrame) (prompt : PyStr) (o : Oracles) :
    ∃ a, (successBranch messages m d prompt o).messages = messages ++ [a] ∧
      a.role = m.role := by
  unfold successBranch
  dsimp only
  split
  · exact vizBranch_one_append ..
  · exact ⟨_, rfl, rfl⟩

/-- Every branch of the execution block appends exactly one message, with
the role of the assistant message under construction. -/
theorem execBranch_one_append (messages : List Message) (m : Message)
    (sql_query : PyStr) (df_main : DataFrame) (prompt : PyStr) (o : Oracles) :
    ∃ a, (execBranch messages m sql_query df_main prompt o).messages = messages ++ [a] ∧
      a.role = m.role := by
  unfold execBranch
  dsimp only
  split
  · exact ⟨_, rfl, rfl⟩
  · split
    · exact ⟨_, rfl, rfl⟩
    · exact successBranch_one_append ..

/-- The visualization block always marks execution, summarization and
visualization generation as run. -/
theorem vizBranch_flags (messages : List Message) (m : Message)
    (rc : PyStr) (d : DataFrame) (prompt : PyStr) (o : Oracles) :
    (vizBranch messages m rc d prompt o).ranExecute = true ∧
    (vizBranch messages m rc d prompt o).ranSummary = true ∧
    (vizBranch messages m rc d prompt o).ranVizGen = true := by
  unfold vizBranch
  dsimp only
  split
  · split <;> exact ⟨rfl, rfl, rfl⟩
  · exact ⟨rfl, rfl, rfl⟩

/-- The success block always marks execution and summarization as run. -/
theorem successBranch_flags (messages : List Message) (m : Message)
    (d : DataFrame) (prompt : PyStr) (o : Oracles) :
    (successBranch messages m d prompt o).ranExecute = true ∧
    (successBranch messages m d prompt o).ranSummary = true := by
  unfold successBranch
  dsimp only
  split
  · exact ⟨(vizBranch_flags ..).1, (vizBranch_flags ..).2.1⟩
  · exact ⟨rfl, rfl⟩

/-- The success block invokes visualization generation exactly when the
result table has at least 2 columns and at least one numeric column. -/
theorem successBranch_ranVizGen (messages : List Message) (m : Message)
    (d : DataFrame) (prompt : PyStr) (o : Oracles) :
    (successBranch messages m d prompt o).ranVizGen = true ↔
      2 ≤ d.cols.length ∧ 0 < d.numericColumns.length := by
  unfold successBranch
  dsimp only
  split
  next h => simp [(vizBranch_flags ..).2.2, h]
  next h => simpa using h

/-- Every branch of the execution block marks execution as run. -/
theorem execBranch_ranExecute (messages : List Message) (m : Message)
    (sql_query : PyStr) (df_main : DataFrame) (prompt : PyStr) (o : Oracles) :
    (execBranch messages m sql_query df_main prompt o).ranExecute = true := by
  unfold execBranch
  dsimp only
  split
  · rfl
  · split
    · rfl
    · exact (successBranch_flags ..).1

/-- When the generated query text does not start with "Error:" and the
engine returns a table, the turn reduces to the execution block's success
path on that table. -/
theorem execBranch_success (messages : List Message) (m : Message)
    (sql_query : PyStr) (df_main : DataFrame) (prompt : PyStr) (o : Oracles)
    (d : DataFrame) (hengine : o.engine sql_query df_main = EngineOutcome.result (some d))
    (hne : d.empty = false) :
    execBranch messages m sql_query df_main prompt o =
      successBranch messages m d prompt o := by
  unfold execBranch execute_query
  rw [hengine]
  dsimp only
  simp [optTruthy, dfAbsentOrEmpty, hne]

/-- C2.  For every user turn, whatever the outcomes of translation,
execution, visualization generation, sandboxed execution and
summarization, the handler appends the user message and then exactly one
assistant message to the conversation state. -/
theorem c2_exactly_one_assistant_turn (messages0 : List Message)
    (prompt : PyStr) (df_main : DataFrame) (o : Oracles) :
    ∃ a, a.role = Role.assistant ∧
      (runTurn messages0 prompt df_main o).messages =
        messages0 ++ [userMessage prompt, a] := by
  unfold runTurn
  dsimp only
  have happ : ∀ a : Message,
      (messages0 ++ [userMessage prompt]) ++ [a] =
        messages0 ++ [userMessage prompt, a] := by
    intro a
    simp
  split
  · exact ⟨_, rfl, happ _⟩
  · obtain ⟨a, ha, hrole⟩ := execBranch_one_append
      (messages0 ++ [userMessage prompt]) _ _ df_main prompt o
    exact ⟨a, hrole, by rw [ha, happ]⟩

/-- A string that begins with a pattern still begins with it after any
text is appended. -/
theorem pyStartsWith_append (p s t : PyStr) (h : pyStartsWith s p = true) :
    pyStartsWith (s ++ t) p = true := by
  induction p generalizing s with
  | nil => simp [pyStartsWith]
  | cons c cs ih =>
    cases s with
    | nil => simp [pyStartsWith] at h
    | cons a as =>
      simp only [pyStartsWith, Bool.and_eq_true] at h
      simp only [List.cons_append, pyStartsWith, Bool.and_eq_true]
      exact ⟨h.1, ih as h.2⟩

/-- When the generated query text does not start with "Error:", the turn
is the execution block applied to that query text. -/
theorem runTurn_no_sql_error (messages0 : List Message) (prompt : PyStr)
    (df_main : DataFrame) (o : Oracles)
    (hsql : ∀ ch sch, pyStartsWith (generate_sql ch sch o.sqlService) "Error:".data = false) :
    runTurn messages0 prompt df_main o =
      execBranch (messages0 ++ [userMessage prompt])
        (assistantDraft (generate_sql (chatHistory (messages0 ++ [userMessage prompt]))
          (get_schema (some df_main)) o.sqlService))
        (generate_sql (chatHistory (messages0 ++ [userMessage prompt]))
          (get_schema (some df_main)) o.sqlService)
        df_main prompt o := by
  unfold runTurn
  dsimp only
  rw [hsql]
  simp

/-- C5.  In a turn whose translation and execution both succeed with a
non-empty result table, the visualization stage is invoked exactly when
the gating predicate holds: the result has at least 2 columns and at
least one numeric column. -/
theorem c5_visualization_gating (messages0 : List Message) (prompt : PyStr)
    (df_main : DataFrame) (o : Oracles) (d : DataFrame)
    (hsql : ∀ ch sch, pyStartsWith (generate_sql ch sch o.sqlService) "Error:".data = false)
    (hengine : ∀ q, o.engine q df_main = EngineOutcome.result (some d))
    (hne : d.empty = false) :
    (runTurn messages0 prompt df_main o).ranVizGen = true ↔
      2 ≤ d.cols.length ∧ 0 < d.numericColumns.length := by
  rw [runTurn_no_sql_error messages0 prompt df_main o hsql,
    execBranch_success _ _ _ _ _ _ d (hengine _) hne]
  exact successBranch_ranVizGen ..

/-- C5 (witness).  A 2-column, one-numeric, one-row result table satisfies
the gating predicate and the gating equivalence applies to it; for a
2-column all-text table the same equivalence applies and the predicate
fails, so visualization is skipped. -/
theorem c5_witness :
    (((runTurn [] "q".data sampleNumericDf (oraclesFor sampleNumericDf)).ranVizGen = true ↔
      2 ≤ sampleNumericDf.cols.length ∧ 0 < sampleNumericDf.numericColumns.length) ∧
      (2 ≤ sampleNumericDf.cols.length ∧ 0 < sampleNumericDf.numericColumns.length)) ∧
    (((runTurn [] "q".data sampleTextDf (oraclesFor sampleTextDf)).ranVizGen = true ↔
      2 ≤ sampleTextDf.cols.length ∧ 0 < sampleTextDf.numericColumns.length) ∧
      ¬(2 ≤ sampleTextDf.cols.length ∧ 0 < sampleTextDf.numericColumns.length)) :=
  ⟨⟨c5_visualization_gating [] "q".data sampleNumericDf (oraclesFor sampleNumericDf)
      sampleNumericDf (fun _ _ => rfl) (fun _ => rfl) (by decide), by decide⟩,
   ⟨c5_visualization_gating [] "q".data sampleTextDf (oraclesFor sampleTextDf)
      sampleTextDf (fun _ _ => rfl) (fun _ => rfl) (by decide), by decide⟩⟩

/-- C6.  In a turn whose translation succeeds and whose execution succeeds
with a zero-row result table, the handler appends the "no results"
assistant turn — displayed as a warning box, not an error box, with no
stored table, summary, chart or code — and neither summarization nor
visualization generation nor sandboxed execution runs. -/
theorem c6_empty_result_turn (messages0 : List Message) (prompt : PyStr)
    (df_main : DataFrame) (o : Oracles) (d : DataFrame)
    (hsql : ∀ ch sch, pyStartsWith (generate_sql ch sch o.sqlService) "Error:".data = false)
    (hengine : ∀ q, o.engine q df_main = EngineOutcome.result (some d))
    (hrows : d.rows = []) :
    ∃ a, (runTurn messages0 prompt df_main o).messages =
        messages0 ++ [userMessage prompt, a] ∧
      a.role = Role.assistant ∧
      a.content = "The query ran successfully but returned no results.".data ∧
      a.summary = none ∧ a.dataframe = none ∧ a.plot = none ∧ a.plotly_code = none ∧
      (runTurn messages0 prompt df_main o).notices =
        [Notice.warningBox "The query ran successfully but returned no results.".data] ∧
      (runTurn messages0 prompt df_main o).ranSummary = false ∧
      (runTurn messages0 prompt df_main o).ranVizGen = false ∧
      (runTurn messages0 prompt df_main o).ranSandbox = false := by
  rw [runTurn_no_sql_error messages0 prompt df_main o hsql]
  unfold execBranch execute_query
  rw [hengine]
  have hemp : d.empty = true := by simp [DataFrame.empty, hrows]
  dsimp only
  simp [optTruthy, dfAbsentOrEmpty, hemp]
  exact ⟨rfl, rfl, rfl, rfl, rfl⟩

/-- C6 (witness). -/
theorem c6_witness :
    ∃ a, (runTurn [] "q".data emptyResultDf (oraclesFor emptyResultDf)).messages =
        [] ++ [userMessage "q".data, a] ∧
      a.role = Role.assistant ∧
      a.content = "The query ran successfully but returned no results.".data ∧
      a.summary = none ∧ a.dataframe = none ∧ a.plot = none ∧ a.plotly_code = none ∧
      (runTurn [] "q".data emptyResultDf (oraclesFor emptyResultDf)).notices =
        [Notice.warningBox "The query ran successfully but returned no results.".data] ∧
      (runTurn [] "q".data emptyResultDf (oraclesFor emptyResultDf)).ranSummary = false ∧
      (runTurn [] "q".data emptyResultDf (oraclesFor emptyResultDf)).ranVizGen = false ∧
      (runTurn [] "q".data emptyResultDf (oraclesFor emptyResultDf)).ranSandbox = false :=
  c6_empty_result_turn [] "q".data emptyResultDf (oraclesFor emptyResultDf) emptyResultDf
    (fun _ _ => rfl) (fun _ => rfl) rfl

/-- C9.  Translation failure is signalled and detected purely through the
"Error:" text prefix: the SQL generator returns "Error:"-prefixed text on
a raised service call, an absent completion and an empty completion; the
handler consults the engine exactly when the returned query text does not
start with "Error:"; and so a legitimate completion that itself begins
with "Error:" is classified as a translation failure and never executed. -/
theorem c9_error_text_protocol (messages0 : List Message) (prompt : PyStr)
    (df_main : DataFrame) (o : Oracles) :
    (∀ ch sch e, pyStartsWith (generate_sql ch sch (ServiceOutcome.exception e))
      "Error:".data = true) ∧
    (∀ ch sch, pyStartsWith (generate_sql ch sch (ServiceOutcome.completion none))
      "Error:".data = true) ∧
    (∀ ch sch, pyStartsWith (generate_sql ch sch (ServiceOutcome.completion (some [])))
      "Error:".data = true) ∧
    ((runTurn messages0 prompt df_main o).ranExecute =
      !pyStartsWith
        (generate_sql (chatHistory (messages0 ++ [userMessage prompt]))
          (get_schema (some df_main)) o.sqlService)
        "Error:".data) ∧
    (runTurn messages0 prompt df_main
      { o with sqlService :=
          ServiceOutcome.completion (some "Error: not actually an error".data) }).ranExecute =
      false := by
  refine ⟨?_, ?_, ?_, ?_, ?_⟩
  · intro ch sch e
    show pyStartsWith
      ("Error: Could not generate SQL query. Details: ".data ++ e) "Error:".data = true
    exact pyStartsWith_append _ _ _ (by decide)
  · intro ch sch
    rfl
  · intro ch sch
    rfl
  · unfold runTurn
    dsimp only
    split
    next h => simp [h]
    next h =>
      simp only [Bool.not_eq_true] at h
      simp [execBranch_ranExecute, h]
  · have hc : pyStartsWith
        (generate_sql (chatHistory (messages0 ++ [userMessage prompt]))
          (get_schema (some df_main))
          (ServiceOutcome.completion (some "Error: not actually an error".data)))
        "Error:".data = true := rfl
    unfold runTurn
    dsimp only
    rw [if_pos hc]

/-- C10.  When the visualization-code service call raises, the returned
text is the non-empty error string, which the handler stores as the
generated code and hands to the sandboxed execution; when that execution
raises, the turn shows the rendering-failure error box and never the
"visualization could not be generated" notice. -/
theorem c10_viz_exception_text_is_executed (messages0 : List Message) (prompt : PyStr)
    (df_main : DataFrame) (o : Oracles) (d : DataFrame) (e r : PyStr)
    (hsql : ∀ ch sch, pyStartsWith (generate_sql ch sch o.sqlService) "Error:".data = false)
    (hengine : ∀ q, o.engine q df_main = EngineOutcome.result (some d))
    (hne : d.empty = false)
    (hgate : 2 ≤ d.cols.length ∧ 0 < d.numericColumns.length)
    (hplot : o.plotService = ServiceOutcome.exception e)
    (hsandbox : o.sandbox ("Error generating Plotly code: ".data ++ e) =
      SandboxOutcome.raised r) :
    (∀ data question, generate_plotly_code data question (ServiceOutcome.exception e) =
      "Error generating Plotly code: ".data ++ e) ∧
    ("Error generating Plotly code: ".data ++ e).isEmpty = false ∧
    ∃ a, (runTurn messages0 prompt df_main o).messages =
        messages0 ++ [userMessage prompt, a] ∧
      a.plotly_code = some ("Error generating Plotly code: ".data ++ e) ∧
      (runTurn messages0 prompt df_main o).ranSandbox = true ∧
      (runTurn messages0 prompt df_main o).notices =
        [Notice.errorBox ("An error occurred while rendering the visualization: ".data ++ r)] ∧
      Notice.infoBox "A visualization could not be generated for this query result.".data ∉
        (runTurn messages0 prompt df_main o).notices := by
  have hplotcode : ∀ data question,
      generate_plotly_code data question (ServiceOutcome.exception e) =
        "Error generating Plotly code: ".data ++ e := fun _ _ => rfl
  have hnonempty : ("Error generating Plotly code: ".data ++ e).isEmpty = false := rfl
  refine ⟨hplotcode, hnonempty, ?_⟩
  rw [runTurn_no_sql_error messages0 prompt df_main o hsql,
    execBranch_success _ _ _ _ _ _ d (hengine _) hne]
  unfold successBranch
  dsimp only
  rw [if_pos hgate]
  unfold vizBranch
  dsimp only
  rw [hplot, hplotcode]
  have hcond : (!("Error generating Plotly code: ".data ++ e).isEmpty) = true := by
    rw [hnonempty]
    rfl
  rw [if_pos hcond, hsandbox]
  dsimp only
  rw [List.append_assoc, List.singleton_append]
  exact ⟨_, rfl, rfl, rfl, rfl, by simp⟩

/-- C10 (witness). -/
theorem c10_witness :
    (∀ data question, generate_plotly_code data question
        (ServiceOutcome.exception "boom".data) =
      "Error generating Plotly code: ".data ++ "boom".data) ∧
    ("Error generating Plotly code: ".data ++ "boom".data).isEmpty = false ∧
    ∃ a, (runTurn [] "q".data sampleNumericDf vizFailureOracles).messages =
        [] ++ [userMessage "q".data, a] ∧
      a.plotly_code = some ("Error generating Plotly code: ".data ++ "boom".data) ∧
      (runTurn [] "q".data sampleNumericDf vizFailureOracles).ranSandbox = true ∧
      (runTurn [] "q".data sampleNumericDf vizFailureOracles).notices =
        [Notice.errorBox ("An error occurred while rendering the visualization: ".data ++
          "invalid syntax".data)] ∧
      Notice.infoBox "A visualization could not be generated for this query result.".data ∉
        (runTurn [] "q".data sampleNumericDf vizFailureOracles).notices :=
  c10_viz_exception_text_is_executed [] "q".data sampleNumericDf vizFailureOracles
    sampleNumericDf "boom".data "invalid syntax".data
    (fun _ _ => rfl) (fun _ => rfl) (by decide) (by decide) rfl rfl

